import Mathlib

/-!
Verification development for the carta-backend DS9 region import/export layer
(src/Region/Ds9ImportExport.cc) and for the per-region statistics and
histogram-cache code (RegionStats.cc, carried inside src/CMakeLists.txt
after the document separator).

Shallow embedding conventions:
* C++ doubles/floats are modelled as exact rationals (ℚ).
* The text tokenization performed by the base-class helper
  RegionImportExport::ParseRegionParameters (not part of src/) is the model
  boundary: a region-definition line reaches SetRegion as a list of parameter
  tokens.  A token is either a word, a numeric value with a trailing unit
  suffix (what std::stod leaves unconsumed), or a sexagesimal triple (the
  hms/dms formats recognised by the sscanf checks).
* casacore collaborators (readQuantity, ConvertPointToPixels,
  WorldToPixelLength, the coordinate system) are external to the repository;
  they are modelled abstractly (readQuantity on validated tokens; the two
  conversion functions are taken as parameters).
* The fmt "{:.2f}" format is modelled as rounding to the nearest hundredth
  (fmt rounds the underlying double to nearest; the tie-breaking differences
  are below the 1e-2 precision discussed here).
-/

namespace Carta

/-- CARTA::Point control point, with exact rational coordinates. -/
structure Point where
  x : ℚ
  y : ℚ
deriving DecidableEq, Repr

/-- CARTA::RegionType enum (the members used by Ds9ImportExport). -/
inductive RegionType
  | point
  | line
  | polyline
  | rectangle
  | ellipse
  | annulus
  | polygon
deriving DecidableEq, Repr

/-- carta::RegionState: geometry snapshot of a region
(file id, name, type, control points in pixel units, rotation in degrees). -/
structure RegionState where
  file_id : Int
  name : String
  type : RegionType
  control_points : List Point
  rotation : ℚ
deriving DecidableEq, Repr

/-- casacore::Quantity: a value with a unit string. -/
structure Quantity where
  value : ℚ
  unit : String
deriving DecidableEq, Repr

/-- A parameter token as delivered by ParseRegionParameters and consumed by
std::stod / casacore::readQuantity in the importers:
`num v suffix` is a numeric literal with the trailing characters std::stod
does not consume; `sexagesimal` covers the hms/dms three-field formats the
sscanf fallback in CheckAndConvertParameter accepts; `word` is a token with
no leading numeric value (std::stod throws on it). -/
inductive Tok
  | num (v : ℚ) (suffix : String)
  | sexagesimal (h m s : ℚ)
  | word (s : String)
deriving DecidableEq, Repr

/-- Substring test on character lists (model of std::string::find != npos). -/
def listContainsSub (l sub : List Char) : Bool :=
  match l with
  | [] => sub.isEmpty
  | _ :: t => sub.isPrefixOf l || listContainsSub t sub

/-- Model of `s.find(sub) != std::string::npos`. -/
def strContains (s sub : String) : Bool :=
  listContainsSub s.toList sub.toList

/-- Round half up, computed directly on the rational's numerator and
denominator so that it evaluates inside the kernel:
roundHalfUp x = ⌊x + 1/2⌋ (shown below to agree with Mathlib's round). -/
def roundHalfUp (x : ℚ) : ℤ := (2 * x.num + (x.den : ℤ)) / (2 * (x.den : ℤ))

/-- Fixed-point rendering of a rational with `prec` decimal digits, the model
of fmt `:.Nf` (round to nearest at the printed precision). -/
def fmtFixed (prec : Nat) (x : ℚ) : String :=
  let base : Nat := 10 ^ prec
  let n : Int := roundHalfUp (x * (base : ℚ))
  let m : Nat := n.natAbs
  let ip : Nat := m / base
  let fp : Nat := m % base
  let fpStr : String := toString fp
  let pad : String := ⟨List.replicate (prec - fpStr.length) (Char.ofNat 48)⟩
  (if n < 0 then "-" else "") ++ toString ip ++ "." ++ pad ++ fpStr

/-- fmt "{:.2f}". -/
def fmtFixed2 (x : ℚ) : String := fmtFixed 2 x

/-- Drop trailing zero digits, then a trailing decimal point. -/
def trimTrailingZeros (s : String) : String :=
  let l := (s.toList.reverse.dropWhile (fun c => c = Char.ofNat 48))
  let l := match l with
    | c :: t => if c = Char.ofNat 46 then t else l
    | [] => l
  ⟨l.reverse⟩

/-- Model of fmt "{}" applied to a float (shortest-style rendering):
integers print without a decimal point, other values print with the
decimal digits needed (trailing zeros removed). -/
def fmtDefault (x : ℚ) : String :=
  if x.den = 1 then toString x.num else trimTrailingZeros (fmtFixed 6 x)

/-- Approximate textual rendering of a token, used only inside error
messages (the source interpolates the original parameter string). -/
def tokString : Tok → String
  | .num v suffix => fmtDefault v ++ suffix
  | .sexagesimal h m s => fmtDefault h ++ ":" ++ fmtDefault m ++ ":" ++ fmtDefault s
  | .word s => s

/-- The single-character DS9 unit table of CheckAndConvertParameter:
d → deg, r → rad, p/i → pixel; the min/sec marks are kept unchanged
(casacore uses the same characters). -/
def ds9UnitToCasacore (u : String) : Option String :=
  if u = "d" then some "deg"
  else if u = "r" then some "rad"
  else if u = "p" then some "pixel"
  else if u = "i" then some "pixel"
  else if u = "\"" then some "\""
  else if u = String.singleton (Char.ofNat 39) then some (String.singleton (Char.ofNat 39))
  else none

/-- Ds9ImportExport::CheckAndConvertParameter: validate a parameter token and
replace its DS9 unit with the casacore unit.  Returns the converted token or
the error message appended to `_import_errors` by the source.
A `word` token fails std::stod ("not a numeric value"); a numeric token is
valid with an empty suffix, with a recognised single-character unit, or in a
sexagesimal format; anything else is an invalid unit. -/
def CheckAndConvertParameter (regionType : String) (tok : Tok) : Except String Tok :=
  let errPre := regionType ++ " invalid parameter "
  match tok with
  | .word s => .error (errPre ++ s ++ ", not a numeric value.\n")
  | .sexagesimal h m s => .ok (.sexagesimal h m s)
  | .num v suffix =>
    if suffix = "" then .ok (.num v "")
    else
      match ds9UnitToCasacore suffix with
      | some u => .ok (.num v u)
      | none => .error (errPre ++ "unit: " ++ tokString (.num v suffix) ++ ".\n")

/-- Ds9ImportExport::ConvertTimeFormatToDeg rewrites ":" separators to "." so
casacore readQuantity parses the sexagesimal value as an angle; at the token
level the sexagesimal value is already explicit, so this is the identity. -/
def ConvertTimeFormatToDeg (tok : Tok) : Tok := tok

/-- Canonical casacore unit for the kept min/sec marks. -/
def normalizeUnit (u : String) : String :=
  if u = "\"" then "arcsec"
  else if u = String.singleton (Char.ofNat 39) then "arcmin"
  else u

/-- Modelled from casacore::readQuantity (external collaborator): a validated
numeric token becomes a Quantity carrying its value and unit; a sexagesimal
token is an angle in degrees; a word token does not parse. -/
def readQuantity : Tok → Option Quantity
  | .num v u => some ⟨v, normalizeUnit u⟩
  | .sexagesimal h m s => some ⟨h + m / 60 + s / 3600, "deg"⟩
  | .word _ => none

/-- The importer-relevant member state of Ds9ImportExport
(_file_id, _file_ref_frame, _image_ref_frame, _pixel_coord). -/
structure Ds9Config where
  file_id : Int
  file_ref_frame : String
  image_ref_frame : String
  pixel_coord : Bool
deriving DecidableEq, Repr

/-- Unit defaulting used by ImportPointRegion / ImportPolygonRegion: a
quantity read without a unit is a pixel value in pixel coordinates,
degrees otherwise. -/
def defaultPixelOrDeg (pixel : Bool) (q : Quantity) : Quantity :=
  if q.unit = "" then { q with unit := if pixel then "pixel" else "deg" } else q

/-- DS9 wcs default units for box and ellipse parameters
(center deg/deg, sizes arcsec/arcsec, angle deg). -/
def ds9WcsUnits : List String := ["", "deg", "deg", "arcsec", "arcsec", "deg"]

/-- Unit defaulting used by ImportEllipseRegion / ImportRectangleRegion:
a unitless quantity gets the wcs table unit when it is the last parameter or
the file is not in pixel coordinates, and "pixel" otherwise. -/
def defaultSizeUnit (pixel : Bool) (nparam i : Nat) (q : Quantity) : Quantity :=
  if q.unit = "" then
    if i = nparam - 1 ∨ pixel = false then { q with unit := ds9WcsUnits.getD i "" }
    else { q with unit := "pixel" }
  else q

/-- The parameter-conversion loop shared by the importers: starting at index
`i`, each token passes CheckAndConvertParameter, optionally
ConvertTimeFormatToDeg (at the indices `timeConv` selects), then readQuantity
followed by the importer's unit defaulting (`adjust`).  The first failure
stops the loop with the error message the source appends. -/
def convertParams (regionType : String) (timeConv : Nat → Bool)
    (adjust : Nat → Quantity → Quantity) :
    List Tok → Nat → Except String (List Quantity)
  | [], _ => .ok []
  | t :: rest, i =>
    match CheckAndConvertParameter regionType t with
    | .error e => .error e
    | .ok t1 =>
      let t2 := if timeConv i then ConvertTimeFormatToDeg t1 else t1
      match readQuantity t2 with
      | none => .error ("Invalid " ++ regionType ++ " parameter " ++ tokString t ++ ".\n")
      | some q =>
        match convertParams regionType timeConv adjust rest (i + 1) with
        | .error e => .error e
        | .ok qs => .ok (adjust i q :: qs)

section Importers

variable (ConvertPointToPixels : String → List Quantity → Option (ℚ × ℚ))
variable (WorldToPixelLength : Quantity → Nat → ℚ)

/-- Ds9ImportExport::ImportPointRegion.  Returns the regions appended to
`_import_regions` and the text appended to `_import_errors`.  The
`excludeRegion` argument is accepted and ignored, as in the source.
The source indexes param_quantities[0..1] without a bounds check; the
(unreachable for well-formed token lines) short case is modelled as a no-op. -/
def ImportPointRegion (cfg : Ds9Config) (parameters : List Tok) (name : String)
    (excludeRegion : Bool) : List RegionState × String :=
  let nparam := parameters.length
  if nparam < 3 ∨ (parameters[0]? ≠ some (Tok.word "point") ∧ parameters[1]? ≠ some (Tok.word "point")) then
    ([], "point syntax error.\n")
  else
    let firstParam : Nat := if parameters[1]? = some (Tok.word "point") then 2 else 1
    match convertParams "point" (fun i => i = firstParam + 1)
        (fun _ q => defaultPixelOrDeg cfg.pixel_coord q)
        (parameters.drop firstParam) firstParam with
    | .error e => ([], e)
    | .ok qs =>
      match qs with
      | q0 :: q1 :: _ =>
        if cfg.pixel_coord then
          ([⟨cfg.file_id, name, RegionType.point, [⟨q0.value, q1.value⟩], 0⟩], "")
        else
          match ConvertPointToPixels cfg.file_ref_frame qs with
          | some (px, py) => ([⟨cfg.file_id, name, RegionType.point, [⟨px, py⟩], 0⟩], "")
          | none => ([], "Failed to apply point to image.\n")
      | _ => ([], "")

/-- Ds9ImportExport::ImportEllipseRegion.  nparam counts the type token;
`is_circle` compares the two radius parameter tokens (the source compares the
parameter strings); a non-circle rotation is the DS9 angle minus 90 degrees,
renormalized into nonnegative values. -/
def ImportEllipseRegion (cfg : Ds9Config) (parameters : List Tok) (name : String)
    (excludeRegion : Bool) : List RegionState × String :=
  let nparam := parameters.length
  if nparam = 5 ∨ nparam = 6 then
    match convertParams "ellipse" (fun i => i = 2) (defaultSizeUnit cfg.pixel_coord nparam)
        (parameters.drop 1) 1 with
    | .error e => ([], e)
    | .ok qs =>
      match qs with
      | q0 :: q1 :: q2 :: q3 :: qrest =>
        let rotation0 : ℚ := if nparam > 5 then (qrest.headD ⟨0, ""⟩).value else 0
        let rotation : ℚ :=
          if parameters[3]? = parameters[4]? then rotation0
          else if rotation0 - 90 < 0 then rotation0 - 90 + 360 else rotation0 - 90
        if cfg.pixel_coord then
          ([⟨cfg.file_id, name, RegionType.ellipse,
             [⟨q0.value, q1.value⟩, ⟨q2.value, q3.value⟩], rotation⟩], "")
        else
          match ConvertPointToPixels cfg.file_ref_frame [q0, q1] with
          | some (px, py) =>
            ([⟨cfg.file_id, name, RegionType.ellipse,
               [⟨px, py⟩, ⟨WorldToPixelLength q2 0, WorldToPixelLength q3 1⟩], rotation⟩], "")
          | none => ([], "Failed to apply ellipse to image.\n")
      | _ => ([], "")
  else if nparam > 6 then ([], "Unsupported ellipse definition.\n")
  else ([], "ellipse syntax error.\n")

/-- Ds9ImportExport::ImportCircleRegion: a circle is re-dispatched as an
ellipse with the radius duplicated and no angle. -/
def ImportCircleRegion (cfg : Ds9Config) (parameters : List Tok) (name : String)
    (excludeRegion : Bool) : List RegionState × String :=
  match parameters with
  | _ :: p1 :: p2 :: p3 :: _ =>
    ImportEllipseRegion ConvertPointToPixels WorldToPixelLength cfg
      [Tok.word "ellipse", p1, p2, p3, p3] name excludeRegion
  | _ => ([], "circle syntax error.\n")

/-- Ds9ImportExport::ImportRectangleRegion (DS9 box). -/
def ImportRectangleRegion (cfg : Ds9Config) (parameters : List Tok) (name : String)
    (excludeRegion : Bool) : List RegionState × String :=
  let nparam := parameters.length
  if nparam = 5 ∨ nparam = 6 then
    match convertParams "box" (fun i => i = 2) (defaultSizeUnit cfg.pixel_coord nparam)
        (parameters.drop 1) 1 with
    | .error e => ([], e)
    | .ok qs =>
      match qs with
      | q0 :: q1 :: q2 :: q3 :: qrest =>
        let rotation : ℚ := if nparam > 5 then (qrest.headD ⟨0, ""⟩).value else 0
        if cfg.pixel_coord then
          ([⟨cfg.file_id, name, RegionType.rectangle,
             [⟨q0.value, q1.value⟩, ⟨q2.value, q3.value⟩], rotation⟩], "")
        else
          match ConvertPointToPixels cfg.file_ref_frame [q0, q1] with
          | some (px, py) =>
            ([⟨cfg.file_id, name, RegionType.rectangle,
               [⟨px, py⟩, ⟨WorldToPixelLength q2 0, WorldToPixelLength q3 1⟩], rotation⟩], "")
          | none => ([], "Failed to apply box to image.\n")
      | _ => ([], "")
  else if nparam > 6 then ([], "Unsupported box definition.\n")
  else ([], "box syntax error.\n")

/-- The control-point pairing loop of ImportPolygonRegion: consecutive
quantity pairs become pixel points; in world coordinates each pair goes
through ConvertPointToPixels and a failure abandons the region with the
error the source appends. -/
def PolygonPoints (pixel : Bool) (frame : String) :
    List Quantity → Except String (List Point)
  | a :: b :: rest =>
    if pixel then
      match PolygonPoints pixel frame rest with
      | .ok ps => .ok (⟨a.value, b.value⟩ :: ps)
      | .error e => .error e
    else
      match ConvertPointToPixels frame [a, b] with
      | some (px, py) =>
        match PolygonPoints pixel frame rest with
        | .ok ps => .ok (⟨px, py⟩ :: ps)
        | .error e => .error e
      | none => .error "Failed to apply polygon to image.\n"
  | _ => .ok []

/-- Ds9ImportExport::ImportPolygonRegion. -/
def ImportPolygonRegion (cfg : Ds9Config) (parameters : List Tok) (name : String)
    (excludeRegion : Bool) : List RegionState × String :=
  let nparam := parameters.length
  if nparam % 2 ≠ 1 then ([], "polygon syntax error, odd number of arguments.\n")
  else
    match convertParams "polygon" (fun i => i % 2 = 0)
        (fun _ q => defaultPixelOrDeg cfg.pixel_coord q)
        (parameters.drop 1) 1 with
    | .error e => ([], e)
    | .ok qs =>
      match PolygonPoints ConvertPointToPixels cfg.pixel_coord cfg.file_ref_frame qs with
      | .ok pts => ([⟨cfg.file_id, name, RegionType.polygon, pts, 0⟩], "")
      | .error e => ([], e)

/-- The include/exclude indicator handling at the top of SetRegion: a "+" or
"-" prefix on the type token is stripped; "-" sets the exclude flag. -/
def StripIncludeExclude (s : String) : String × Bool :=
  match s.toList with
  | c :: rest =>
    if c = Char.ofNat 43 then (⟨rest⟩, false)
    else if c = Char.ofNat 45 then (⟨rest⟩, true)
    else (s, false)
  | [] => (s, false)

/-- parameters[0] as the region-type string.  A numeric or sexagesimal first
token never contains a region keyword, so it is modelled as the empty
string (same dispatch behavior). -/
def headWordString : List Tok → String
  | Tok.word s :: _ => s
  | _ => ""

/-- A region-definition line after ParseRegionParameters: parameter tokens
plus the "text" property (empty when absent; the only property the source
uses). -/
structure Ds9Line where
  parameters : List Tok
  textProperty : String
deriving DecidableEq, Repr

/-- Ds9ImportExport::SetRegion: strip the include/exclude indicator from the
type token, pick the region name from the "text" property, and dispatch on
the type keyword in the source's order.  Returns the regions appended to
`_import_regions` and the text appended to `_import_errors`.  Note that the
un-stripped `parameters` vector is what reaches the importer. -/
def SetRegion (cfg : Ds9Config) (line : Ds9Line) : List RegionState × String :=
  let stripped := StripIncludeExclude (headWordString line.parameters)
  let regionType := stripped.1
  let excludeRegion := stripped.2
  let name := line.textProperty
  if strContains regionType "point" then
    ImportPointRegion ConvertPointToPixels cfg line.parameters name excludeRegion
  else if strContains regionType "circle" then
    ImportCircleRegion ConvertPointToPixels WorldToPixelLength cfg line.parameters name excludeRegion
  else if strContains regionType "ellipse" then
    ImportEllipseRegion ConvertPointToPixels WorldToPixelLength cfg line.parameters name excludeRegion
  else if strContains regionType "box" then
    ImportRectangleRegion ConvertPointToPixels WorldToPixelLength cfg line.parameters name excludeRegion
  else if strContains regionType "polygon" then
    ImportPolygonRegion ConvertPointToPixels cfg line.parameters name excludeRegion
  else if strContains regionType "line" then ([], "DS9 line region not supported.\n")
  else if strContains regionType "vector" then ([], "DS9 vector region not supported.\n")
  else if strContains regionType "text" then ([], "DS9 text not supported.\n")
  else if strContains regionType "annulus" then ([], "DS9 annulus region not supported.\n")
  else ([], "")

end Importers

/-- Ds9ImportExport::InitDs9CoordMap (DS9 keyword → casacore frame). -/
def Ds9CoordMap : List (String × String) :=
  [("physical", ""), ("image", ""), ("b1950", "B1950"), ("fk4", "B1950"),
   ("j2000", "J2000"), ("fk5", "J2000"), ("galactic", "GALACTIC"),
   ("ecliptic", "ECLIPTIC"), ("icrs", "ICRS"), ("wcs", "UNSUPPORTED"),
   ("wcsa", "UNSUPPORTED"), ("linear", "UNSUPPORTED")]

/-- Ds9ImportExport::SetFileReferenceFrame.  `imageFrame` stands for the
value SetImageReferenceFrame derives from the (external) coordinate system.
Returns the success flag and the updated member state. -/
def SetFileReferenceFrame (imageFrame : String) (cfg : Ds9Config) (ds9Coord : String) :
    Bool × Ds9Config :=
  let frame :=
    match Ds9CoordMap.lookup ds9Coord with
    | some f => f
    | none => "UNSUPPORTED"
  let cfg := { cfg with file_ref_frame := frame }
  let cfg :=
    if (Ds9CoordMap.lookup ds9Coord).isSome ∧ ds9Coord ≠ "physical" ∧ ds9Coord ≠ "image" then
      { cfg with pixel_coord := false,
                 image_ref_frame := if cfg.image_ref_frame = "" then imageFrame else cfg.image_ref_frame }
    else cfg
  if frame = "UNSUPPORTED" then (false, { cfg with pixel_coord := false }) else (true, cfg)

/-- Member state of Ds9ImportExport during import. -/
structure ImportState where
  (config : Ds9Config) (import_regions : List RegionState) (import_errors : String)
deriving DecidableEq, Repr

/-- One line of a DS9 region file, classified by the if-chain at the top of
ProcessFileLines (the conditions are checked in the source's order: empty
line, "#" comment, leading "-", a line containing "global", a coordinate
system keyword recognised by IsDs9CoordSysKeyword (carried lowercased, as
SetFileReferenceFrame lowercases in place), anything else is a region
definition carried in parsed form). -/
inductive FileLine
  | blank
  | comment (text : String)
  | dashLine (text : String)
  | globalLine (text : String)
  | coordSysKeyword (keyword : String)
  | regionLine (line : Ds9Line)
deriving DecidableEq, Repr

section Processing

variable (ConvertPointToPixels : String → List Quantity → Option (ℚ × ℚ))
variable (WorldToPixelLength : Quantity → Nat → ℚ)
variable (imageFrame : String)

/-- One iteration of the ProcessFileLines loop.  The Bool component is the
local ds9_coord_sys_ok flag: region lines are skipped entirely while it is
false. -/
def ProcessLine (s : Bool × ImportState) (fl : FileLine) : Bool × ImportState :=
  match fl with
  | .blank => s
  | .comment _ => s
  | .dashLine _ => s
  | .globalLine _ => s
  | .coordSysKeyword k =>
    let r := SetFileReferenceFrame imageFrame s.2.config k
    if r.1 then (true, { s.2 with config := r.2 })
    else
      (false,
        ⟨r.2, s.2.import_regions,
         s.2.import_errors ++ ("coord sys " ++ k ++ " not supported.\n")⟩)
  | .regionLine l =>
    if s.1 then
      let d := SetRegion ConvertPointToPixels WorldToPixelLength s.2.config l
      (s.1, ⟨s.2.config, s.2.import_regions ++ d.1, s.2.import_errors ++ d.2⟩)
    else s

/-- Ds9ImportExport::ProcessFileLines: fold the per-line step over the file,
starting with the coordinate-system flag true. -/
def ProcessFileLines (lines : List FileLine) (st : ImportState) : ImportState :=
  (lines.foldl (ProcessLine ConvertPointToPixels WorldToPixelLength imageFrame) (true, st)).2

/-- The net effect of one ProcessFileLines iteration, split out from the
accumulated member state: resulting flag, resulting config, regions appended
and error text appended. -/
def LineDelta (ok : Bool) (cfg : Ds9Config) (fl : FileLine) :
    Bool × Ds9Config × List RegionState × String :=
  match fl with
  | .coordSysKeyword k =>
    let r := SetFileReferenceFrame imageFrame cfg k
    if r.1 then (true, r.2, [], "")
    else (false, r.2, [], "coord sys " ++ k ++ " not supported.\n")
  | .regionLine l =>
    if ok then
      let d := SetRegion ConvertPointToPixels WorldToPixelLength cfg l
      (ok, cfg, d.1, d.2)
    else (ok, cfg, [], "")
  | _ => (ok, cfg, [], "")

/-- The net effect of a whole ProcessFileLines run from a given flag and
config: final flag, final config, all regions appended, all errors appended. -/
def RunDelta (ok : Bool) (cfg : Ds9Config) : List FileLine → Bool × Ds9Config × List RegionState × String
  | [] => (ok, cfg, [], "")
  | fl :: rest =>
    let d := LineDelta ConvertPointToPixels WorldToPixelLength imageFrame ok cfg fl
    let r := RunDelta d.1 d.2.1 rest
    (r.1, r.2.1, d.2.2.1 ++ r.2.2.1, d.2.2.2 ++ r.2.2.2)

end Processing

/-- fmt "{:.2f}" value rounding: the exported text carries the coordinate
rounded to the nearest hundredth. -/
def round2 (x : ℚ) : ℚ := (roundHalfUp (x * 100) : ℚ) / 100

/-- The DS9 angle written by AddExportRegion: ellipse angles are measured
from the x-axis, so 90 degrees are added and one wrap above 360 removed;
other types export the rotation unchanged. -/
def ExportAngle (rs : RegionState) : ℚ :=
  if rs.type = RegionType.ellipse then
    let a := rs.rotation + 90
    if a > 360 then a - 360 else a
  else rs.rotation

/-- The token pairs "{:.2f}, {:.2f}" printed for a list of control points. -/
def pointToks : List Point → List Tok
  | [] => []
  | p :: rest => Tok.num (round2 p.x) "" :: Tok.num (round2 p.y) "" :: pointToks rest

/-- The region-definition line AddExportRegion(RegionState) prints, in the
token form in which the importer's tokenizer hands it back to SetRegion:
numeric fields carry the value printed at two decimals ("{:.2f}"); the
trailing angle of box/ellipse is printed with "{}" (exact); an ellipse with
equal size components prints as a circle; an ellipse with nonpositive DS9
angle omits the angle.  Types the switch does not handle produce no line. -/
def AddExportRegionTokens (rs : RegionState) : Option Ds9Line :=
  let angle := ExportAngle rs
  match rs.type, rs.control_points with
  | RegionType.point, p0 :: _ =>
    some ⟨[Tok.word "point", Tok.num (round2 p0.x) "", Tok.num (round2 p0.y) ""], rs.name⟩
  | RegionType.rectangle, p0 :: p1 :: _ =>
    some ⟨[Tok.word "box", Tok.num (round2 p0.x) "", Tok.num (round2 p0.y) "",
           Tok.num (round2 p1.x) "", Tok.num (round2 p1.y) "", Tok.num angle ""], rs.name⟩
  | RegionType.ellipse, p0 :: p1 :: _ =>
    if p1.x = p1.y then
      some ⟨[Tok.word "circle", Tok.num (round2 p0.x) "", Tok.num (round2 p0.y) "",
             Tok.num (round2 p1.x) ""], rs.name⟩
    else if angle > 0 then
      some ⟨[Tok.word "ellipse", Tok.num (round2 p0.x) "", Tok.num (round2 p0.y) "",
             Tok.num (round2 p1.x) "", Tok.num (round2 p1.y) "", Tok.num angle ""], rs.name⟩
    else
      some ⟨[Tok.word "ellipse", Tok.num (round2 p0.x) "", Tok.num (round2 p0.y) "",
             Tok.num (round2 p1.x) "", Tok.num (round2 p1.y) ""], rs.name⟩
  | RegionType.polygon, p0 :: rest =>
    some ⟨Tok.word "polygon" :: pointToks (p0 :: rest), rs.name⟩
  | _, _ => none

/-- The tail of the polygon export line: each further control point prints
as "," x "," y (no spaces, as in the source's ostringstream loop). -/
def polygonTail : List Point → String
  | [] => ""
  | p :: rest => "," ++ fmtFixed2 p.x ++ "," ++ fmtFixed2 p.y ++ polygonTail rest

/-- The region_line string built by the switch in
Ds9ImportExport::AddExportRegion(RegionState): empty for types the switch
does not handle (the declaration default). -/
def AddExportRegionLine (rs : RegionState) : String :=
  let angle := ExportAngle rs
  match rs.type, rs.control_points with
  | RegionType.point, p0 :: _ =>
    "point(" ++ fmtFixed2 p0.x ++ ", " ++ fmtFixed2 p0.y ++ ")"
  | RegionType.rectangle, p0 :: p1 :: _ =>
    "box(" ++ fmtFixed2 p0.x ++ ", " ++ fmtFixed2 p0.y ++ ", " ++ fmtFixed2 p1.x ++ ", " ++
      fmtFixed2 p1.y ++ ", " ++ fmtDefault angle ++ ")"
  | RegionType.ellipse, p0 :: p1 :: _ =>
    if p1.x = p1.y then
      "circle(" ++ fmtFixed2 p0.x ++ ", " ++ fmtFixed2 p0.y ++ ", " ++ fmtFixed2 p1.x ++ ")"
    else if angle > 0 then
      "ellipse(" ++ fmtFixed2 p0.x ++ ", " ++ fmtFixed2 p0.y ++ ", " ++ fmtFixed2 p1.x ++ ", " ++
        fmtFixed2 p1.y ++ ", " ++ fmtDefault angle ++ ")"
    else
      "ellipse(" ++ fmtFixed2 p0.x ++ ", " ++ fmtFixed2 p0.y ++ ", " ++ fmtFixed2 p1.x ++ ", " ++
        fmtFixed2 p1.y ++ ")"
  | RegionType.polygon, p0 :: rest =>
    "polygon(" ++ fmtFixed2 p0.x ++ ", " ++ fmtFixed2 p0.y ++ polygonTail rest ++ ")"
  | _, _ => ""

/-- Member state of Ds9ImportExport during export. -/
structure ExportState where
  export_regions : List String
  file_ref_frame : String
  pixel_coord : Bool
deriving DecidableEq, Repr

/-- Ds9ImportExport::AddExportRegion(RegionState): build the region line,
append the name property when present, and push the terminated line; an
empty line (unhandled type without a name) returns false without pushing. -/
def AddExportRegion (rs : RegionState) (st : ExportState) : Bool × ExportState :=
  let regionLine := AddExportRegionLine rs
  let regionLine :=
    if rs.name = "" then regionLine
    else regionLine ++ " # text=\x7b" ++ rs.name ++ "\x7d"
  if regionLine = "" then (false, st)
  else (true, { st with export_regions := st.export_regions ++ [regionLine ++ "\n"] })

/-- Ds9ImportExport::AddHeader: pushes the format/global header and the
coordinate-system line into _export_regions.  The Ds9Properties global
defaults live in the header file (outside src/), so the global line is a
parameter. -/
def AddHeader (version globalsLine : String) (st : ExportState) : ExportState :=
  { st with export_regions :=
      st.export_regions ++
        ["# Region file format: DS9 CARTA " ++ version ++ "\n" ++ globalsLine ++ "\n",
         (if st.file_ref_frame = "" then "image" else st.file_ref_frame) ++ "\n"] }

/-- The export constructor Ds9ImportExport(coord_sys, shape, pixel_coord):
sets the file reference frame ("physical" for pixel coordinates,
the frame derived from the image's coordinate system otherwise — external,
passed as `worldFrame`) and unconditionally calls AddHeader. -/
def InitExportState (version globalsLine : String) (pixelCoord : Bool) (worldFrame : String) :
    ExportState :=
  AddHeader version globalsLine
    { export_regions := [],
      file_ref_frame := if pixelCoord then "physical" else worldFrame,
      pixel_coord := pixelCoord }

/-- Ds9ImportExport::ExportRegions(contents, error): fails with an error
message when _export_regions is empty, otherwise hands the lines out. -/
def ExportRegions (st : ExportState) : Bool × List String × String :=
  if st.export_regions.isEmpty then
    (false, [], "Export region failed: no regions to export.")
  else (true, st.export_regions, "")

/-!
Histogram and statistics layer, from RegionStats.cc (carried inside
src/CMakeLists.txt after the document separator).  RegionStats keeps a map
from channel index to the last CARTA::Histogram computed for it, with the
stokes index and bin count of the last fill held beside it in the
m_stokes/m_bins side fields; nothing is ever removed from the map.  The
Histogram binning class itself (src/ImageStats/Histogram.cc) and the
casacore statistics engine are not under src/ and are modelled as stated on
the definitions below.
-/

/-- CARTA::Histogram protobuf message, with the fields
RegionStats::fillHistogram sets: channel, num_bins, bin_width,
first_bin_center and the bin counts.  The message records no stokes index. -/
structure CartaHistogram where
  (channel : Nat) (num_bins : Int) (bin_width : ℚ) (first_bin_center : ℚ) (bins : List Nat)
deriving DecidableEq, Repr

/-- Modelled from the spec: the Histogram class (src/ImageStats/Histogram.cc)
whose getBinWidth fillHistogram reads is not under src/; per spec section
4.3 the bin width is (max−min)/numBins. -/
def histogramBinWidth (nBins : Int) (minVal maxVal : ℚ) : ℚ :=
  (maxVal - minVal) / (nBins : ℚ)

/-- Modelled from the spec: the Histogram class bin counts; bin i counts the
samples in [min + i*width, min + (i+1)*width). -/
def histogramBins (nBins : Int) (minVal maxVal : ℚ) (data : List ℚ) : List Nat :=
  let width := histogramBinWidth nBins minVal maxVal
  (List.range nBins.toNat).map fun i =>
    (data.filter fun v =>
      decide (minVal + i * width ≤ v) && decide (v < minVal + (i + 1) * width)).length

/-- The RegionStats members involved in histograms: the channel→histogram
map m_channelHistograms and the m_stokes/m_bins side fields recording the
configuration of the last fill. -/
structure RegionStats where
  (m_channelHistograms : List (Nat × CartaHistogram)) (m_stokes : Nat) (m_bins : Int)
deriving DecidableEq, Repr

/-- m_channelHistograms[chanIndex] = histogram: insert or overwrite the
entry for one channel, leaving every other channel entry in place. -/
def mapInsert (k : Nat) (v : CartaHistogram) :
    List (Nat × CartaHistogram) → List (Nat × CartaHistogram)
  | [] => [(k, v)]
  | (k2, v2) :: rest => if k = k2 then (k, v) :: rest else (k2, v2) :: mapInsert k v rest

/-- The compute-and-store else branch of RegionStats::fillHistogram: build
the histogram from the Histogram class results, store it under its channel,
and overwrite the m_stokes/m_bins side fields.  Entries computed for other
channels — under whatever earlier configuration — stay in the map. -/
def fillHistogramCompute (st : RegionStats) (chanIndex stokesIndex : Nat) (nBins : Int)
    (minVal maxVal : ℚ) (data : List ℚ) : CartaHistogram × RegionStats :=
  let binWidth := histogramBinWidth nBins minVal maxVal
  let histogram : CartaHistogram :=
    ⟨chanIndex, nBins, binWidth, minVal + binWidth / 2,
     histogramBins nBins minVal maxVal data⟩
  (histogram,
   ⟨mapInsert chanIndex histogram st.m_channelHistograms, stokesIndex, nBins⟩)

/-- RegionStats::fillHistogram: return the stored histogram when this
channel has an entry and the m_stokes/m_bins side fields equal the
requested stokes and bin count; otherwise compute and store. -/
def fillHistogram (st : RegionStats) (chanIndex stokesIndex : Nat) (nBins : Int)
    (minVal maxVal : ℚ) (data : List ℚ) : CartaHistogram × RegionStats :=
  match st.m_channelHistograms.lookup chanIndex with
  | some stored =>
    if st.m_stokes = stokesIndex ∧ st.m_bins = nBins then (stored, st)
    else fillHistogramCompute st chanIndex stokesIndex nBins minVal maxVal data
  | none => fillHistogramCompute st chanIndex stokesIndex nBins minVal maxVal data

/-- RegionStats::getChannelHistogram: a stored entry is returned when the
channel is present and the side fields equal the query. -/
def getChannelHistogram (st : RegionStats) (channel stokes : Nat) (numBins : Int) :
    Option CartaHistogram :=
  match st.m_channelHistograms.lookup channel with
  | some stored =>
    if st.m_stokes = stokes ∧ st.m_bins = numBins then some stored else none
  | none => none

/-- A RegionStats with no histogram computed yet.  The side fields only gate
map hits, so while the map is empty their initial values are irrelevant. -/
def initRegionStats : RegionStats := ⟨[], 0, -1⟩

/-- CARTA::StatsType members handled by RegionStats::getStatsValues. -/
inductive StatsType
  | none
  | sum
  | fluxDensity
  | mean
  | rms
  | sigma
  | sumSq
  | min
  | max
  | blc
  | trc
  | minPos
  | maxPos
deriving DecidableEq, Repr

/-- CARTA::StatisticsValue: a statistics type with its value
(0, the protobuf default, when never set). -/
structure StatsValue where
  (stats_type : StatsType) (value : ℚ)
deriving DecidableEq, Repr

/-- RegionStats::getStatsValues: one value vector per requested statistic.
Every numeric result comes from casacore::LatticeStatistics or the
sub-lattice slicer (external collaborators), abstracted here as
`statValues`; a None requirement selects no lattice statistic and yields an
empty vector.  The m_regionStats ints are modelled by the enum directly
(out-of-range ints fall into the same empty-vector default branch as None). -/
def getStatsValues (statValues : StatsType → List ℚ) (requestedStats : List StatsType) :
    List (List ℚ) :=
  requestedStats.map fun t =>
    match t with
    | StatsType.none => []
    | _ => statValues t

/-- RegionStats::fillStatsData: with no requirements set, add a single
StatisticsValue carrying the sentinel type CARTA::StatsType::None (its
value field is never set) and return; otherwise pair each requirement with
the first entry of its getStatsValues vector.  The source reads values[0]
unchecked; an empty vector there is out of bounds, modelled as the protobuf
default 0. -/
def fillStatsData (statValues : StatsType → List ℚ) (m_regionStats : List StatsType) :
    List StatsValue :=
  if m_regionStats.isEmpty then [⟨StatsType.none, 0⟩]
  else
    (List.zip m_regionStats (getStatsValues statValues m_regionStats)).map fun p =>
      ⟨p.1, p.2.headD 0⟩

/-- Componentwise closeness at the exported precision (1e-2). -/
def closePoint (p q : Point) : Prop :=
  |q.x - p.x| ≤ 1 / 100 ∧ |q.y - p.y| ≤ 1 / 100

/-- The member state right after the import constructor runs on a
pixel-coordinate ("physical") region file. -/
def pixelCfg : Ds9Config :=
  { file_id := 0, file_ref_frame := "physical", image_ref_frame := "", pixel_coord := true }

/-- An initial import state for whole-file runs. -/
def initImportState : ImportState :=
  { config := pixelCfg, import_regions := [], import_errors := "" }

/-- Trivial stand-in for the external world-to-pixel point conversion
(used to instantiate theorems at concrete inputs; pixel-coordinate paths
never call it). -/
def noPointConversion : String → List Quantity → Option (ℚ × ℚ) := fun _ _ => none

/-- Trivial stand-in for the external world-to-pixel length conversion. -/
def noLengthConversion : Quantity → Nat → ℚ := fun _ _ => 0

/-- Equality modulo 360 degrees over the rationals. -/
def ModEq360 (a b : ℚ) : Prop := ∃ k : ℤ, a - b = 360 * k

/-- A control point as it survives the two-decimal export and re-import. -/
def roundPoint (p : Point) : Point := ⟨round2 p.x, round2 p.y⟩

/-- The quantities the polygon importer reads back from an exported
pixel-coordinate point list. -/
def pointQuants : List Point → List Quantity
  | [] => []
  | p :: rest => ⟨round2 p.x, "pixel"⟩ :: ⟨round2 p.y, "pixel"⟩ :: pointQuants rest

/-!  Theorems. -/

/-- The executable half-up rounding agrees with Mathlib's round. -/
theorem roundHalfUp_eq_round (x : ℚ) : roundHalfUp x = round x := by
  rw [round_eq, roundHalfUp]
  have hx : x + 1 / 2 = ((2 * x.num + (x.den : ℤ) : ℤ) : ℚ) / ((2 * x.den : ℕ) : ℚ) := by
    have hden : (x.den : ℚ) ≠ 0 := by exact_mod_cast x.den_nz
    nth_rewrite 1 [← Rat.num_div_den x]
    push_cast
    field_simp
    ring
  rw [hx, Rat.floor_intCast_div_natCast]
  push_cast
  ring_nf

/-- C4: exporting an ellipse RegionState whose two size components are
equal, with center (10,10) and radius 5, in pixel coordinates, produces
exactly the DS9 region line circle(10.00, 10.00, 5.00). -/
theorem ds9_export_circle_line :
    AddExportRegionLine ⟨0, "", RegionType.ellipse, [⟨10, 10⟩, ⟨5, 5⟩], 0⟩ =
      "circle(10.00, 10.00, 5.00)" := by
  have h10 : roundHalfUp ((10 : ℚ) * (((10 : ℕ) ^ 2 : ℕ) : ℚ)) = 1000 := by
    rw [roundHalfUp_eq_round]; norm_num [round_eq]
  have h5 : roundHalfUp ((5 : ℚ) * (((10 : ℕ) ^ 2 : ℕ) : ℚ)) = 500 := by
    rw [roundHalfUp_eq_round]; norm_num [round_eq]
  simp only [AddExportRegionLine, fmtFixed2, fmtFixed, h10, h5]
  rfl

/-- C5: whenever the stats requirements list is empty, fillStatsData
returns exactly one StatisticsValue, carrying the sentinel type None — for
every statistics engine and input sub-lattice (both abstracted by
statValues), so no statistics computation influences the result. -/
theorem fillStatsData_empty_requirements (statValues : StatsType → List ℚ)
    (m_regionStats : List StatsType) (hreq : m_regionStats = []) :
    fillStatsData statValues m_regionStats = [⟨StatsType.none, 0⟩] := by
  subst hreq
  rfl

/-- Witness for C5. -/
theorem fillStatsData_empty_requirements_witness :
    fillStatsData (fun _ => []) [] = [⟨StatsType.none, 0⟩] :=
  fillStatsData_empty_requirements (fun _ => []) [] rfl

/-- On a miss (no stored entry for this channel under the current side
fields), fillHistogram takes the compute-and-store branch. -/
theorem fillHistogram_of_miss (st : RegionStats) (chanIndex stokesIndex : Nat)
    (nBins : Int) (minVal maxVal : ℚ) (data : List ℚ)
    (hmiss : getChannelHistogram st chanIndex stokesIndex nBins = none) :
    fillHistogram st chanIndex stokesIndex nBins minVal maxVal data =
      fillHistogramCompute st chanIndex stokesIndex nBins minVal maxVal data := by
  unfold getChannelHistogram at hmiss
  unfold fillHistogram
  cases hl : st.m_channelHistograms.lookup chanIndex with
  | none => rfl
  | some stored =>
    rw [hl] at hmiss
    have hmiss2 : (if st.m_stokes = stokesIndex ∧ st.m_bins = nBins then some stored
        else none) = none := hmiss
    have hcfg : ¬ (st.m_stokes = stokesIndex ∧ st.m_bins = nBins) := by
      intro hc
      rw [if_pos hc] at hmiss2
      exact Option.noConfusion hmiss2
    show (if st.m_stokes = stokesIndex ∧ st.m_bins = nBins then (stored, st)
      else fillHistogramCompute st chanIndex stokesIndex nBins minVal maxVal data) =
      fillHistogramCompute st chanIndex stokesIndex nBins minVal maxVal data
    rw [if_neg hcfg]

/-- C7: every histogram fillHistogram actually computes (a miss on the
stored map and side fields) with bin count nBins ≥ 1 and data range
[minVal, maxVal] reports bin width (max − min)/nBins (read from the
spec-modelled Histogram class) and first bin center min + width/2 (set
directly by RegionStats::fillHistogram). -/
theorem histogram_bin_width_first_center (st : RegionStats) (chanIndex stokesIndex : Nat)
    (nBins : Int) (minVal maxVal : ℚ) (data : List ℚ)
    (hbins : 1 ≤ nBins)
    (hmiss : getChannelHistogram st chanIndex stokesIndex nBins = none) :
    (fillHistogram st chanIndex stokesIndex nBins minVal maxVal data).1.bin_width =
      (maxVal - minVal) / (nBins : ℚ) ∧
    (fillHistogram st chanIndex stokesIndex nBins minVal maxVal data).1.first_bin_center =
      minVal + ((maxVal - minVal) / (nBins : ℚ)) / 2 := by
  rw [fillHistogram_of_miss st chanIndex stokesIndex nBins minVal maxVal data hmiss]
  exact ⟨rfl, rfl⟩

/-- Witness for C7: a fresh RegionStats misses, so the fill computes. -/
theorem histogram_bin_width_first_center_witness :
    (fillHistogram initRegionStats 0 0 4 0 8 [1, 3]).1.bin_width =
      ((8 : ℚ) - 0) / ((4 : ℤ) : ℚ) ∧
    (fillHistogram initRegionStats 0 0 4 0 8 [1, 3]).1.first_bin_center =
      0 + (((8 : ℚ) - 0) / ((4 : ℤ) : ℚ)) / 2 :=
  histogram_bin_width_first_center initRegionStats 0 0 4 0 8 [1, 3] (by decide) rfl

/-- C1: the code keeps stale entries when the stokes/bins configuration
changes.  Trace: fillHistogram stores a histogram for channel 0 under
stokes 0; fillHistogram for channel 1 under stokes 1 misses (new channel),
computes, and only overwrites the m_stokes/m_bins side fields — the
stokes-0 entry for channel 0 stays in m_channelHistograms; the query
(channel 0, stokes 1, 4 bins) then passes all three checks and returns the
histogram the first, stokes-0 fill computed.  The claimed invariant —
changing stokes evicts (makes unreturnable) entries computed under the old
value — is false in the code. -/
theorem histogram_cache_stale_stokes :
    getChannelHistogram
        (fillHistogram
          (fillHistogram initRegionStats 0 0 4 0 8 [1, 1, 1]).2
          1 1 4 0 8 [5, 5, 5]).2
        0 1 4 =
      some (fillHistogram initRegionStats 0 0 4 0 8 [1, 1, 1]).1 := rfl

/-- Stripping a "+" prefix. -/
theorem stripIncludeExclude_plus (t : String) :
    StripIncludeExclude ("+" ++ t) = (t, false) := by
  have h : ("+" ++ t).toList = Char.ofNat 43 :: t.toList := rfl
  simp [StripIncludeExclude, h]

/-- Stripping a "-" prefix sets the exclude flag. -/
theorem stripIncludeExclude_minus (t : String) :
    StripIncludeExclude ("-" ++ t) = (t, true) := by
  have h : ("-" ++ t).toList = Char.ofNat 45 :: t.toList := rfl
  simp [StripIncludeExclude, h]

/-- ImportCircleRegion reads only parameters[1..3]; the type token and the
exclude flag do not influence it. -/
theorem importCircleRegion_head_irrel (cvt : String → List Quantity → Option (ℚ × ℚ))
    (wpl : Quantity → Nat → ℚ) (cfg : Ds9Config) (h1 h2 : Tok) (rest : List Tok)
    (name : String) (e1 e2 : Bool) :
    ImportCircleRegion cvt wpl cfg (h1 :: rest) name e1 =
      ImportCircleRegion cvt wpl cfg (h2 :: rest) name e2 := by
  rcases rest with _ | ⟨a, _ | ⟨b, _ | ⟨c, t⟩⟩⟩ <;> rfl

/-- ImportEllipseRegion reads only the parameter count and parameters[1..];
the type token and the exclude flag do not influence it. -/
theorem importEllipseRegion_head_irrel (cvt : String → List Quantity → Option (ℚ × ℚ))
    (wpl : Quantity → Nat → ℚ) (cfg : Ds9Config) (h1 h2 : Tok) (rest : List Tok)
    (name : String) (e1 e2 : Bool) :
    ImportEllipseRegion cvt wpl cfg (h1 :: rest) name e1 =
      ImportEllipseRegion cvt wpl cfg (h2 :: rest) name e2 := by
  simp only [ImportEllipseRegion, List.length_cons, List.drop_succ_cons, List.drop_zero,
    List.getElem?_cons_succ]

/-- ImportRectangleRegion reads only the parameter count and parameters[1..]. -/
theorem importRectangleRegion_head_irrel (cvt : String → List Quantity → Option (ℚ × ℚ))
    (wpl : Quantity → Nat → ℚ) (cfg : Ds9Config) (h1 h2 : Tok) (rest : List Tok)
    (name : String) (e1 e2 : Bool) :
    ImportRectangleRegion cvt wpl cfg (h1 :: rest) name e1 =
      ImportRectangleRegion cvt wpl cfg (h2 :: rest) name e2 := by
  simp only [ImportRectangleRegion, List.length_cons, List.drop_succ_cons, List.drop_zero,
    List.getElem?_cons_succ]

/-- ImportPolygonRegion reads only the parameter count and parameters[1..]. -/
theorem importPolygonRegion_head_irrel (cvt : String → List Quantity → Option (ℚ × ℚ))
    (cfg : Ds9Config) (h1 h2 : Tok) (rest : List Tok) (name : String) (e1 e2 : Bool) :
    ImportPolygonRegion cvt cfg (h1 :: rest) name e1 =
      ImportPolygonRegion cvt cfg (h2 :: rest) name e2 := by
  simp only [ImportPolygonRegion, List.length_cons, List.drop_succ_cons, List.drop_zero]

/-- Two region lines whose type tokens strip to the same keyword — and that
keyword does not dispatch to the point importer — import identically:
no importer other than ImportPointRegion reads parameters[0], and none
reads the exclude flag. -/
theorem setRegion_head_irrel (cvt : String → List Quantity → Option (ℚ × ℚ))
    (wpl : Quantity → Nat → ℚ) (cfg : Ds9Config) (w1 w2 : String) (rest : List Tok)
    (tp : String)
    (hw : (StripIncludeExclude w1).1 = (StripIncludeExclude w2).1)
    (hnp : strContains (StripIncludeExclude w2).1 "point" = false) :
    SetRegion cvt wpl cfg ⟨Tok.word w1 :: rest, tp⟩ =
      SetRegion cvt wpl cfg ⟨Tok.word w2 :: rest, tp⟩ := by
  simp only [SetRegion, headWordString, hw, hnp]
  simp only [Bool.false_eq_true, if_false]
  split_ifs
  · exact importCircleRegion_head_irrel cvt wpl cfg _ _ rest tp _ _
  · exact importEllipseRegion_head_irrel cvt wpl cfg _ _ rest tp _ _
  · exact importRectangleRegion_head_irrel cvt wpl cfg _ _ rest tp _ _
  · exact importPolygonRegion_head_irrel cvt cfg _ _ rest tp _ _
  all_goals rfl

/-- C8 counterexample: an include-prefixed point line is rejected with a
syntax error (ImportPointRegion checks the un-stripped parameters[0]),
while the same line without the prefix imports a point region. -/
theorem ds9_exclude_flag_counterexample :
    (SetRegion noPointConversion noLengthConversion pixelCfg
      ⟨[Tok.word "+point", Tok.num 1 "", Tok.num 2 ""], ""⟩).1 = [] ∧
    (SetRegion noPointConversion noLengthConversion pixelCfg
      ⟨[Tok.word "+point", Tok.num 1 "", Tok.num 2 ""], ""⟩).2 = "point syntax error.\n" ∧
    (SetRegion noPointConversion noLengthConversion pixelCfg
      ⟨[Tok.word "point", Tok.num 1 "", Tok.num 2 ""], ""⟩).1 =
      [⟨0, "", RegionType.point, [⟨1, 2⟩], 0⟩] :=
  ⟨rfl, rfl, rfl⟩

/-- C8 (amended): a "+" or "-" prefix on the type token is stripped for
dispatch and the exclude flag is discarded (never recorded): for every line
whose stripped type token does not dispatch to the point importer,
the import result is identical with and without the prefix; a prefixed plain
point line, however, fails ImportPointRegion's un-stripped parameters[0]
check (unless parameters[1] is the word point) and reports a syntax error
instead of importing. -/
theorem ds9_include_exclude_no_effect (cvt : String → List Quantity → Option (ℚ × ℚ))
    (wpl : Quantity → Nat → ℚ) (cfg : Ds9Config) (t : String) (rest : List Tok)
    (tp : String)
    (hplain : StripIncludeExclude t = (t, false)) :
    (strContains t "point" = false →
      SetRegion cvt wpl cfg ⟨Tok.word ("+" ++ t) :: rest, tp⟩ =
        SetRegion cvt wpl cfg ⟨Tok.word t :: rest, tp⟩ ∧
      SetRegion cvt wpl cfg ⟨Tok.word ("-" ++ t) :: rest, tp⟩ =
        SetRegion cvt wpl cfg ⟨Tok.word t :: rest, tp⟩) ∧
    (t = "point" → rest.head? ≠ some (Tok.word "point") →
      SetRegion cvt wpl cfg ⟨Tok.word ("+" ++ t) :: rest, tp⟩ =
        ([], "point syntax error.\n") ∧
      SetRegion cvt wpl cfg ⟨Tok.word ("-" ++ t) :: rest, tp⟩ =
        ([], "point syntax error.\n")) := by
  constructor
  · intro hnp
    have hnp2 : strContains (StripIncludeExclude t).1 "point" = false := by
      rw [hplain]; exact hnp
    constructor
    · exact setRegion_head_irrel cvt wpl cfg _ t rest tp
        (by rw [stripIncludeExclude_plus, hplain]) hnp2
    · exact setRegion_head_irrel cvt wpl cfg _ t rest tp
        (by rw [stripIncludeExclude_minus, hplain]) hnp2
  · intro ht hrest
    subst ht
    constructor
    · show SetRegion cvt wpl cfg ⟨Tok.word ("+" ++ "point") :: rest, tp⟩ = _
      have hdisp : strContains (StripIncludeExclude ("+" ++ "point")).1 "point" = true := by
        rw [stripIncludeExclude_plus]; rfl
      simp only [SetRegion, headWordString, hdisp, if_true]
      unfold ImportPointRegion
      rw [if_pos]
      refine Or.inr ⟨by simp, ?_⟩
      rw [List.head?_eq_getElem?] at hrest
      simpa using hrest
    · show SetRegion cvt wpl cfg ⟨Tok.word ("-" ++ "point") :: rest, tp⟩ = _
      have hdisp : strContains (StripIncludeExclude ("-" ++ "point")).1 "point" = true := by
        rw [stripIncludeExclude_minus]; rfl
      simp only [SetRegion, headWordString, hdisp, if_true]
      unfold ImportPointRegion
      rw [if_pos]
      refine Or.inr ⟨by simp, ?_⟩
      rw [List.head?_eq_getElem?] at hrest
      simpa using hrest

/-- Witness for C8 at a concrete circle line. -/
theorem ds9_include_exclude_no_effect_witness :
    (strContains "circle" "point" = false →
      SetRegion noPointConversion noLengthConversion pixelCfg
          ⟨Tok.word ("+" ++ "circle") :: [Tok.num 1 "", Tok.num 2 "", Tok.num 3 ""], ""⟩ =
        SetRegion noPointConversion noLengthConversion pixelCfg
          ⟨Tok.word "circle" :: [Tok.num 1 "", Tok.num 2 "", Tok.num 3 ""], ""⟩ ∧
      SetRegion noPointConversion noLengthConversion pixelCfg
          ⟨Tok.word ("-" ++ "circle") :: [Tok.num 1 "", Tok.num 2 "", Tok.num 3 ""], ""⟩ =
        SetRegion noPointConversion noLengthConversion pixelCfg
          ⟨Tok.word "circle" :: [Tok.num 1 "", Tok.num 2 "", Tok.num 3 ""], ""⟩) ∧
    ("circle" = "point" → [Tok.num 1 "", Tok.num 2 "", Tok.num 3 ""].head? ≠ some (Tok.word "point") →
      SetRegion noPointConversion noLengthConversion pixelCfg
          ⟨Tok.word ("+" ++ "circle") :: [Tok.num 1 "", Tok.num 2 "", Tok.num 3 ""], ""⟩ =
        ([], "point syntax error.\n") ∧
      SetRegion noPointConversion noLengthConversion pixelCfg
          ⟨Tok.word ("-" ++ "circle") :: [Tok.num 1 "", Tok.num 2 "", Tok.num 3 ""], ""⟩ =
        ([], "point syntax error.\n")) :=
  ds9_include_exclude_no_effect noPointConversion noLengthConversion pixelCfg "circle"
    [Tok.num 1 "", Tok.num 2 "", Tok.num 3 ""] "" rfl

/-- The empty unit suffix stays empty under unit normalization. -/
theorem normalizeUnit_empty : normalizeUnit "" = "" := rfl

/-- Pixel-coordinate import of a point line. -/
theorem setRegion_point_pixel (cvt : String → List Quantity → Option (ℚ × ℚ))
    (wpl : Quantity → Nat → ℚ) (a b : ℚ) (nm : String) :
    SetRegion cvt wpl pixelCfg ⟨[Tok.word "point", Tok.num a "", Tok.num b ""], nm⟩ =
      ([⟨0, nm, RegionType.point, [⟨a, b⟩], 0⟩], "") := rfl

/-- Pixel-coordinate import of a box line with an angle parameter. -/
theorem setRegion_box_pixel (cvt : String → List Quantity → Option (ℚ × ℚ))
    (wpl : Quantity → Nat → ℚ) (a b c d e : ℚ) (nm : String) :
    SetRegion cvt wpl pixelCfg ⟨[Tok.word "box", Tok.num a "", Tok.num b "",
        Tok.num c "", Tok.num d "", Tok.num e ""], nm⟩ =
      ([⟨0, nm, RegionType.rectangle, [⟨a, b⟩, ⟨c, d⟩], e⟩], "") := rfl

/-- Pixel-coordinate import of a six-parameter ellipse line: the imported
rotation depends on the string comparison of the two radius tokens. -/
theorem setRegion_ellipse6_pixel (cvt : String → List Quantity → Option (ℚ × ℚ))
    (wpl : Quantity → Nat → ℚ) (a b c d e : ℚ) (nm : String) :
    SetRegion cvt wpl pixelCfg ⟨[Tok.word "ellipse", Tok.num a "", Tok.num b "",
        Tok.num c "", Tok.num d "", Tok.num e ""], nm⟩ =
      ([⟨0, nm, RegionType.ellipse, [⟨a, b⟩, ⟨c, d⟩],
        if c = d then e else if e - 90 < 0 then e - 90 + 360 else e - 90⟩], "") := by
  by_cases hcd : c = d <;>
    simp [SetRegion, headWordString, StripIncludeExclude, strContains, listContainsSub,
      ImportEllipseRegion, convertParams, CheckAndConvertParameter, ConvertTimeFormatToDeg,
      readQuantity, normalizeUnit_empty, defaultSizeUnit, ds9WcsUnits, hcd, ImportPointRegion,
      pixelCfg]

/-- Pixel-coordinate import of a five-parameter (angle-free) ellipse line. -/
theorem setRegion_ellipse5_pixel (cvt : String → List Quantity → Option (ℚ × ℚ))
    (wpl : Quantity → Nat → ℚ) (a b c d : ℚ) (nm : String) :
    SetRegion cvt wpl pixelCfg ⟨[Tok.word "ellipse", Tok.num a "", Tok.num b "",
        Tok.num c "", Tok.num d ""], nm⟩ =
      ([⟨0, nm, RegionType.ellipse, [⟨a, b⟩, ⟨c, d⟩],
        if c = d then 0 else 270⟩], "") := by
  by_cases hcd : c = d <;>
    simp [SetRegion, headWordString, StripIncludeExclude, strContains, listContainsSub,
      ImportEllipseRegion, convertParams, CheckAndConvertParameter, ConvertTimeFormatToDeg,
      readQuantity, normalizeUnit_empty, defaultSizeUnit, ds9WcsUnits, hcd, ImportPointRegion,
      pixelCfg] <;>
    norm_num

/-- Pixel-coordinate import of a circle line (re-dispatched as an ellipse
with the radius duplicated, so never rotated). -/
theorem setRegion_circle_pixel (cvt : String → List Quantity → Option (ℚ × ℚ))
    (wpl : Quantity → Nat → ℚ) (a b c : ℚ) (nm : String) :
    SetRegion cvt wpl pixelCfg ⟨[Tok.word "circle", Tok.num a "", Tok.num b "",
        Tok.num c ""], nm⟩ =
      ([⟨0, nm, RegionType.ellipse, [⟨a, b⟩, ⟨c, c⟩], 0⟩], "") := by
  simp [SetRegion, headWordString, StripIncludeExclude, strContains, listContainsSub,
    ImportCircleRegion, ImportEllipseRegion, convertParams, CheckAndConvertParameter,
    ConvertTimeFormatToDeg, readQuantity, normalizeUnit_empty, defaultSizeUnit, ds9WcsUnits,
    ImportPointRegion, pixelCfg]

/-- C3 counterexample: the ellipse with center (1,1), size (5.001, 5.002) and
rotation 0 has unequal axes, but both round to 5.00 in the exported text, so
the re-import takes the circle branch and keeps the DS9 angle: the imported
rotation is 90, not 0 (mod 360). -/
theorem ds9_ellipse_angle_counterexample :
    ((SetRegion noPointConversion noLengthConversion pixelCfg
        ((AddExportRegionTokens
            ⟨0, "", RegionType.ellipse, [⟨1, 1⟩, ⟨5001 / 1000, 2501 / 500⟩], 0⟩).getD
          ⟨[], ""⟩)).1).map RegionState.rotation = [90] ∧
    ¬ ModEq360 90 0 := by
  constructor
  · have h1 : round2 (1 : ℚ) = 1 := by
      unfold round2; rw [roundHalfUp_eq_round]; norm_num [round_eq]
    have h2 : round2 (5001 / 1000 : ℚ) = 5 := by
      unfold round2; rw [roundHalfUp_eq_round]; norm_num [round_eq]
    have h3 : round2 (2501 / 500 : ℚ) = 5 := by
      unfold round2; rw [roundHalfUp_eq_round]; norm_num [round_eq]
    have hne : (5001 / 1000 : ℚ) ≠ 2501 / 500 := by norm_num
    have hang : ExportAngle ⟨0, "", RegionType.ellipse, [⟨1, 1⟩, ⟨5001 / 1000, 2501 / 500⟩], 0⟩ =
        90 := by
      simp [ExportAngle]
      norm_num
    have hexp : AddExportRegionTokens
        ⟨0, "", RegionType.ellipse, [⟨1, 1⟩, ⟨5001 / 1000, 2501 / 500⟩], 0⟩ =
        some ⟨[Tok.word "ellipse", Tok.num 1 "", Tok.num 1 "",
               Tok.num 5 "", Tok.num 5 "", Tok.num 90 ""], ""⟩ := by
      simp [AddExportRegionTokens, hang, h1, h2, h3, hne]
    rw [hexp]
    rfl
  · rintro ⟨k, hk⟩
    have h4 : (k : ℚ) * 4 = 1 := by linarith
    have h5 : ((k * 4 : ℤ) : ℚ) = ((1 : ℤ) : ℚ) := by push_cast; linarith
    have h6 : (k * 4 : ℤ) = 1 := Int.cast_injective h5
    omega

/-- C3 (amended): for an ellipse whose two size components still differ
after rounding to two decimals and whose rotation lies in [0, 360), the DS9
angle convention is applied consistently: exporting and re-importing in
pixel coordinates returns exactly the original rotation (export adds 90 and
unwraps once above 360; import subtracts 90 and wraps negatives). -/
theorem ds9_ellipse_angle_roundtrip (cvt : String → List Quantity → Option (ℚ × ℚ))
    (wpl : Quantity → Nat → ℚ) (rs : RegionState) (p0 p1 : Point)
    (htype : rs.type = RegionType.ellipse)
    (hpts : rs.control_points = [p0, p1])
    (hround : round2 p1.x ≠ round2 p1.y)
    (hlo : 0 ≤ rs.rotation) (hhi : rs.rotation < 360) :
    ((SetRegion cvt wpl pixelCfg
        ((AddExportRegionTokens rs).getD ⟨[], ""⟩)).1).map RegionState.rotation =
      [rs.rotation] := by
  obtain ⟨fid, nm, ty, cps, rot⟩ := rs
  simp only at htype hpts hlo hhi
  subst htype
  subst hpts
  have hxy : p1.x ≠ p1.y := fun h => hround (by rw [h])
  have hang : ExportAngle ⟨fid, nm, RegionType.ellipse, [p0, p1], rot⟩ =
      if rot + 90 > 360 then rot + 90 - 360 else rot + 90 := by
    simp [ExportAngle]
  have hangpos : (if rot + 90 > 360 then rot + 90 - 360 else rot + 90) > 0 := by
    split <;> linarith
  have hexp : AddExportRegionTokens ⟨fid, nm, RegionType.ellipse, [p0, p1], rot⟩ =
      some ⟨[Tok.word "ellipse", Tok.num (round2 p0.x) "", Tok.num (round2 p0.y) "",
             Tok.num (round2 p1.x) "", Tok.num (round2 p1.y) "",
             Tok.num (if rot + 90 > 360 then rot + 90 - 360 else rot + 90) ""], nm⟩ := by
    simp only [AddExportRegionTokens, hang]
    rw [if_neg hxy, if_pos hangpos]
  rw [hexp]
  simp only [Option.getD_some]
  rw [setRegion_ellipse6_pixel]
  rw [if_neg hround]
  by_cases h360 : rot + 90 > 360
  · rw [if_pos h360, if_pos (by linarith : rot + 90 - 360 - 90 < 0)]
    have he : rot + 90 - 360 - 90 + 360 = rot := by ring
    rw [he]
    rfl
  · rw [if_neg h360, if_neg (by linarith : ¬ rot + 90 - 90 < 0)]
    have he : rot + 90 - 90 = rot := by ring
    rw [he]
    rfl

/-- Witness for C3 at a concrete ellipse with axes 3 and 4 and rotation 45. -/
theorem ds9_ellipse_angle_roundtrip_witness :
    ((SetRegion noPointConversion noLengthConversion pixelCfg
        ((AddExportRegionTokens ⟨0, "", RegionType.ellipse, [⟨1, 2⟩, ⟨3, 4⟩], 45⟩).getD
          ⟨[], ""⟩)).1).map RegionState.rotation = [45] := by
  have h3 : round2 (3 : ℚ) = 3 := by
    unfold round2; rw [roundHalfUp_eq_round]; norm_num [round_eq]
  have h4 : round2 (4 : ℚ) = 4 := by
    unfold round2; rw [roundHalfUp_eq_round]; norm_num [round_eq]
  exact ds9_ellipse_angle_roundtrip noPointConversion noLengthConversion
    ⟨0, "", RegionType.ellipse, [⟨1, 2⟩, ⟨3, 4⟩], 45⟩ ⟨1, 2⟩ ⟨3, 4⟩ rfl rfl
    (by rw [h3, h4]; norm_num) (by norm_num) (by norm_num)

/-- The two-decimal export rounding moves a coordinate by at most 1/100
(in fact at most 1/200). -/
theorem abs_round2_sub (x : ℚ) : |round2 x - x| ≤ 1 / 100 := by
  have h := abs_sub_round (x * 100)
  rw [round2, roundHalfUp_eq_round]
  have heq : (round (x * 100) : ℚ) / 100 - x = ((round (x * 100) : ℚ) - x * 100) / 100 := by
    ring
  rw [heq, abs_div]
  have h100 : |(100 : ℚ)| = 100 := by norm_num
  rw [h100]
  rw [abs_sub_comm] at h
  linarith

/-- A control point is within the printed precision of its rounded image. -/
theorem closePoint_roundPoint (p : Point) : closePoint p (roundPoint p) :=
  ⟨abs_round2_sub p.x, abs_round2_sub p.y⟩

/-- Every control-point list is pointwise within the printed precision of
its rounded image. -/
theorem forallTwo_close : ∀ l : List Point, List.Forall₂ closePoint l (l.map roundPoint)
  | [] => List.Forall₂.nil
  | p :: rest => List.Forall₂.cons (closePoint_roundPoint p) (forallTwo_close rest)

/-- The token list printed for a point list has one token per coordinate. -/
theorem pointToks_length : ∀ pts : List Point, (pointToks pts).length = 2 * pts.length
  | [] => rfl
  | _ :: rest => by simp [pointToks, pointToks_length rest]; ring

/-- The polygon conversion loop reads an exported pixel point list back as
the rounded coordinates with the "pixel" unit. -/
theorem convertParams_pointQuants (tc : Nat → Bool) :
    ∀ (pts : List Point) (i : Nat),
      convertParams "polygon" tc (fun _ q => defaultPixelOrDeg true q) (pointToks pts) i =
        Except.ok (pointQuants pts)
  | [], _ => rfl
  | p :: rest, i => by
    have hd : ∀ v : ℚ, defaultPixelOrDeg true ⟨v, ""⟩ = ⟨v, "pixel"⟩ := fun v => rfl
    simp only [pointToks, convertParams, CheckAndConvertParameter, ConvertTimeFormatToDeg,
      ite_self, readQuantity, normalizeUnit_empty, pointQuants, reduceIte, hd]
    rw [convertParams_pointQuants tc rest (i + 1 + 1)]

/-- Pairing the read-back quantities recovers the rounded control points. -/
theorem polygonPoints_pixel (cvt : String → List Quantity → Option (ℚ × ℚ)) (frame : String) :
    ∀ pts : List Point,
      PolygonPoints cvt true frame (pointQuants pts) = Except.ok (pts.map roundPoint)
  | [] => rfl
  | p :: rest => by
    simp only [pointQuants, PolygonPoints, List.map_cons, roundPoint, if_true]
    rw [polygonPoints_pixel cvt frame rest]

/-- Pixel-coordinate import of an exported polygon line. -/
theorem setRegion_polygon_pixel (cvt : String → List Quantity → Option (ℚ × ℚ))
    (wpl : Quantity → Nat → ℚ) (pts : List Point) (nm : String) :
    SetRegion cvt wpl pixelCfg ⟨Tok.word "polygon" :: pointToks pts, nm⟩ =
      ([⟨0, nm, RegionType.polygon, pts.map roundPoint, 0⟩], "") := by
  have hstrip : StripIncludeExclude "polygon" = ("polygon", false) := rfl
  have hk1 : strContains "polygon" "point" = false := rfl
  have hk2 : strContains "polygon" "circle" = false := rfl
  have hk3 : strContains "polygon" "ellipse" = false := rfl
  have hk4 : strContains "polygon" "box" = false := rfl
  have hk5 : strContains "polygon" "polygon" = true := rfl
  simp only [SetRegion, headWordString, hstrip, hk1, hk2, hk3, hk4, hk5,
    Bool.false_eq_true, if_false, if_true]
  have hlen : (Tok.word "polygon" :: pointToks pts).length % 2 = 1 := by
    simp [List.length_cons, pointToks_length]
    omega
  simp only [ImportPolygonRegion, List.drop_succ_cons, List.drop_zero, pixelCfg]
  rw [if_neg (by simp [pointToks_length]; omega)]
  simp only [convertParams_pointQuants, polygonPoints_pixel]

/-- C2: every well-formed point, rectangle, ellipse/circle or polygon
RegionState exported to a DS9 pixel-coordinate line and re-imported comes
back as a single region whose control points are exactly the original
coordinates rounded to two decimals, hence within the printed precision
1e-2 of the originals. -/
theorem ds9_pixel_roundtrip_control_points (cvt : String → List Quantity → Option (ℚ × ℚ))
    (wpl : Quantity → Nat → ℚ) (rs : RegionState)
    (harity : (rs.type = RegionType.point ∧ rs.control_points.length = 1) ∨
              (rs.type = RegionType.rectangle ∧ rs.control_points.length = 2) ∨
              (rs.type = RegionType.ellipse ∧ rs.control_points.length = 2) ∨
              (rs.type = RegionType.polygon ∧ 3 ≤ rs.control_points.length)) :
    (AddExportRegionTokens rs).isSome = true ∧
    ((SetRegion cvt wpl pixelCfg ((AddExportRegionTokens rs).getD ⟨[], ""⟩)).1).map
        RegionState.control_points = [rs.control_points.map roundPoint] ∧
    List.Forall₂ closePoint rs.control_points (rs.control_points.map roundPoint) := by
  have key : (AddExportRegionTokens rs).isSome = true ∧
      ((SetRegion cvt wpl pixelCfg ((AddExportRegionTokens rs).getD ⟨[], ""⟩)).1).map
        RegionState.control_points = [rs.control_points.map roundPoint] := by
    obtain ⟨fid, nm, ty, cps, rot⟩ := rs
    simp only at harity
    rcases harity with ⟨hty, hlen⟩ | ⟨hty, hlen⟩ | ⟨hty, hlen⟩ | ⟨hty, hlen⟩ <;> subst hty
    · obtain ⟨p, hp⟩ := List.length_eq_one.mp hlen
      subst hp
      exact ⟨rfl, rfl⟩
    · obtain ⟨p0, p1, hp⟩ := List.length_eq_two.mp hlen
      subst hp
      exact ⟨rfl, rfl⟩
    · obtain ⟨p0, p1, hp⟩ := List.length_eq_two.mp hlen
      subst hp
      by_cases hxy : p1.x = p1.y
      · refine ⟨by simp [AddExportRegionTokens, if_pos hxy], ?_⟩
        simp only [AddExportRegionTokens, if_pos hxy, Option.getD_some]
        rw [setRegion_circle_pixel]
        simp [roundPoint, hxy]
      · by_cases hang : ExportAngle ⟨fid, nm, RegionType.ellipse, [p0, p1], rot⟩ > 0
        · refine ⟨by simp [AddExportRegionTokens, if_neg hxy, if_pos hang], ?_⟩
          simp only [AddExportRegionTokens, if_neg hxy, if_pos hang, Option.getD_some]
          rw [setRegion_ellipse6_pixel]
          simp [roundPoint]
        · refine ⟨by simp [AddExportRegionTokens, if_neg hxy, if_neg hang], ?_⟩
          simp only [AddExportRegionTokens, if_neg hxy, if_neg hang, Option.getD_some]
          rw [setRegion_ellipse5_pixel]
          simp [roundPoint]
    · match cps, hlen with
      | p0 :: rest, _ =>
        refine ⟨rfl, ?_⟩
        simp only [AddExportRegionTokens, Option.getD_some]
        rw [setRegion_polygon_pixel]
        rfl
  exact ⟨key.1, key.2, forallTwo_close _⟩

/-- Witness for C2 at a concrete rectangle. -/
theorem ds9_pixel_roundtrip_control_points_witness :
    (AddExportRegionTokens ⟨0, "r", RegionType.rectangle, [⟨1, 2⟩, ⟨3, 4⟩], 30⟩).isSome = true ∧
    ((SetRegion noPointConversion noLengthConversion pixelCfg
        ((AddExportRegionTokens ⟨0, "r", RegionType.rectangle, [⟨1, 2⟩, ⟨3, 4⟩], 30⟩).getD
          ⟨[], ""⟩)).1).map RegionState.control_points =
      [[⟨1, 2⟩, ⟨3, 4⟩].map roundPoint] ∧
    List.Forall₂ closePoint [⟨1, 2⟩, ⟨3, 4⟩] ([⟨1, 2⟩, ⟨3, 4⟩].map roundPoint) :=
  ds9_pixel_roundtrip_control_points noPointConversion noLengthConversion
    ⟨0, "r", RegionType.rectangle, [⟨1, 2⟩, ⟨3, 4⟩], 30⟩
    (Or.inr (Or.inl ⟨rfl, rfl⟩))

/-- Concatenation of strings is associative. -/
theorem strAppend_assoc (a b c : String) : a ++ b ++ c = a ++ (b ++ c) := by
  apply String.ext
  simp [String.data_append, List.append_assoc]

/-- One ProcessFileLines iteration, written as the flag/config transition
plus the regions and error text it appends. -/
theorem processLine_delta (cvt : String → List Quantity → Option (ℚ × ℚ))
    (wpl : Quantity → Nat → ℚ) (imgf : String) (ok : Bool) (st : ImportState)
    (fl : FileLine) :
    ProcessLine cvt wpl imgf (ok, st) fl =
      ((LineDelta cvt wpl imgf ok st.config fl).1,
       ⟨(LineDelta cvt wpl imgf ok st.config fl).2.1,
        st.import_regions ++ (LineDelta cvt wpl imgf ok st.config fl).2.2.1,
        st.import_errors ++ (LineDelta cvt wpl imgf ok st.config fl).2.2.2⟩) := by
  cases fl with
  | blank => simp [ProcessLine, LineDelta]
  | comment t => simp [ProcessLine, LineDelta]
  | dashLine t => simp [ProcessLine, LineDelta]
  | globalLine t => simp [ProcessLine, LineDelta]
  | coordSysKeyword k =>
    simp only [ProcessLine, LineDelta]
    split <;> simp
  | regionLine l =>
    simp only [ProcessLine, LineDelta]
    split <;> simp

/-- A whole ProcessFileLines run, written as its RunDelta: final flag and
config, with the appended regions and error text split off the initial
accumulated state. -/
theorem foldl_processLine_delta (cvt : String → List Quantity → Option (ℚ × ℚ))
    (wpl : Quantity → Nat → ℚ) (imgf : String) :
    ∀ (lines : List FileLine) (ok : Bool) (st : ImportState),
      lines.foldl (ProcessLine cvt wpl imgf) (ok, st) =
        ((RunDelta cvt wpl imgf ok st.config lines).1,
         ⟨(RunDelta cvt wpl imgf ok st.config lines).2.1,
          st.import_regions ++ (RunDelta cvt wpl imgf ok st.config lines).2.2.1,
          st.import_errors ++ (RunDelta cvt wpl imgf ok st.config lines).2.2.2⟩)
  | [], ok, st => by simp [RunDelta]
  | fl :: rest, ok, st => by
    rw [List.foldl_cons, processLine_delta]
    rw [foldl_processLine_delta cvt wpl imgf rest]
    simp only [RunDelta]
    simp [List.append_assoc, strAppend_assoc]

/-- C6 counterexample: an unsupported coordinate-system line ("wcsa")
appends its own error but also disables every following region line: the
syntactically valid point line after it is not imported, while the same
point line alone imports fine. -/
theorem ds9_import_coordsys_counterexample :
    (ProcessFileLines noPointConversion noLengthConversion "GALACTIC"
       [FileLine.coordSysKeyword "wcsa",
        FileLine.regionLine ⟨[Tok.word "point", Tok.num 1 "", Tok.num 2 ""], ""⟩]
       initImportState).import_regions = [] ∧
    (ProcessFileLines noPointConversion noLengthConversion "GALACTIC"
       [FileLine.coordSysKeyword "wcsa",
        FileLine.regionLine ⟨[Tok.word "point", Tok.num 1 "", Tok.num 2 ""], ""⟩]
       initImportState).import_errors = "coord sys wcsa not supported.\n" ∧
    (ProcessFileLines noPointConversion noLengthConversion "GALACTIC"
       [FileLine.regionLine ⟨[Tok.word "point", Tok.num 1 "", Tok.num 2 ""], ""⟩]
       initImportState).import_regions =
      [⟨0, "", RegionType.point, [⟨1, 2⟩], 0⟩] :=
  ⟨rfl, rfl, rfl⟩

/-- C6 (amended): while the coordinate-system flag is supported, each region
line's processing is isolated: inserting a region line into a file appends
exactly that line's regions and error text (for a line that fails to parse:
no regions, its error message) at its position, and leaves the
contribution of every other line unchanged. -/
theorem ds9_per_line_error_isolation (cvt : String → List Quantity → Option (ℚ × ℚ))
    (wpl : Quantity → Nat → ℚ) (imgf : String) (lines1 lines2 : List FileLine)
    (l : Ds9Line) (st0 : ImportState)
    (hok : (RunDelta cvt wpl imgf true st0.config lines1).1 = true) :
    (ProcessFileLines cvt wpl imgf (lines1 ++ FileLine.regionLine l :: lines2)
        st0).import_regions
      = (ProcessFileLines cvt wpl imgf lines1 st0).import_regions
        ++ (SetRegion cvt wpl (RunDelta cvt wpl imgf true st0.config lines1).2.1 l).1
        ++ (RunDelta cvt wpl imgf true (RunDelta cvt wpl imgf true st0.config lines1).2.1
            lines2).2.2.1 ∧
    (ProcessFileLines cvt wpl imgf (lines1 ++ lines2) st0).import_regions
      = (ProcessFileLines cvt wpl imgf lines1 st0).import_regions
        ++ (RunDelta cvt wpl imgf true (RunDelta cvt wpl imgf true st0.config lines1).2.1
            lines2).2.2.1 ∧
    (ProcessFileLines cvt wpl imgf (lines1 ++ FileLine.regionLine l :: lines2)
        st0).import_errors
      = (ProcessFileLines cvt wpl imgf lines1 st0).import_errors
        ++ (SetRegion cvt wpl (RunDelta cvt wpl imgf true st0.config lines1).2.1 l).2
        ++ (RunDelta cvt wpl imgf true (RunDelta cvt wpl imgf true st0.config lines1).2.1
            lines2).2.2.2 ∧
    (ProcessFileLines cvt wpl imgf (lines1 ++ lines2) st0).import_errors
      = (ProcessFileLines cvt wpl imgf lines1 st0).import_errors
        ++ (RunDelta cvt wpl imgf true (RunDelta cvt wpl imgf true st0.config lines1).2.1
            lines2).2.2.2 := by
  have h1 := foldl_processLine_delta cvt wpl imgf lines1 true st0
  rw [hok] at h1
  unfold ProcessFileLines
  rw [List.foldl_append, List.foldl_append, List.foldl_cons, h1, processLine_delta]
  simp only [LineDelta, if_true]
  rw [foldl_processLine_delta, foldl_processLine_delta]
  simp [List.append_assoc, strAppend_assoc]

/-- Witness for C6: a failing ellipse line between no other lines appends
its syntax error and imports nothing. -/
theorem ds9_per_line_error_isolation_witness :
    (ProcessFileLines noPointConversion noLengthConversion "GALACTIC"
        ([] ++ FileLine.regionLine ⟨[Tok.word "ellipse", Tok.num 1 ""], ""⟩ :: [])
        initImportState).import_regions
      = (ProcessFileLines noPointConversion noLengthConversion "GALACTIC" []
          initImportState).import_regions
        ++ (SetRegion noPointConversion noLengthConversion
            (RunDelta noPointConversion noLengthConversion "GALACTIC" true
              initImportState.config []).2.1 ⟨[Tok.word "ellipse", Tok.num 1 ""], ""⟩).1
        ++ (RunDelta noPointConversion noLengthConversion "GALACTIC" true
            (RunDelta noPointConversion noLengthConversion "GALACTIC" true
              initImportState.config []).2.1 []).2.2.1 ∧
    (ProcessFileLines noPointConversion noLengthConversion "GALACTIC" ([] ++ [])
        initImportState).import_regions
      = (ProcessFileLines noPointConversion noLengthConversion "GALACTIC" []
          initImportState).import_regions
        ++ (RunDelta noPointConversion noLengthConversion "GALACTIC" true
            (RunDelta noPointConversion noLengthConversion "GALACTIC" true
              initImportState.config []).2.1 []).2.2.1 ∧
    (ProcessFileLines noPointConversion noLengthConversion "GALACTIC"
        ([] ++ FileLine.regionLine ⟨[Tok.word "ellipse", Tok.num 1 ""], ""⟩ :: [])
        initImportState).import_errors
      = (ProcessFileLines noPointConversion noLengthConversion "GALACTIC" []
          initImportState).import_errors
        ++ (SetRegion noPointConversion noLengthConversion
            (RunDelta noPointConversion noLengthConversion "GALACTIC" true
              initImportState.config []).2.1 ⟨[Tok.word "ellipse", Tok.num 1 ""], ""⟩).2
        ++ (RunDelta noPointConversion noLengthConversion "GALACTIC" true
            (RunDelta noPointConversion noLengthConversion "GALACTIC" true
              initImportState.config []).2.1 []).2.2.2 ∧
    (ProcessFileLines noPointConversion noLengthConversion "GALACTIC" ([] ++ [])
        initImportState).import_errors
      = (ProcessFileLines noPointConversion noLengthConversion "GALACTIC" []
          initImportState).import_errors
        ++ (RunDelta noPointConversion noLengthConversion "GALACTIC" true
            (RunDelta noPointConversion noLengthConversion "GALACTIC" true
              initImportState.config []).2.1 []).2.2.2 :=
  ds9_per_line_error_isolation noPointConversion noLengthConversion "GALACTIC" [] []
    ⟨[Tok.word "ellipse", Tok.num 1 ""], ""⟩ initImportState rfl

/-- C9 helper: AddExportRegion only ever appends to _export_regions. -/
theorem addExportRegion_extends (rs : RegionState) (st : ExportState) :
    ∃ tail, ((AddExportRegion rs st).2).export_regions = st.export_regions ++ tail := by
  by_cases h : (if rs.name = "" then AddExportRegionLine rs
      else AddExportRegionLine rs ++ " # text=\x7b" ++ rs.name ++ "\x7d") = ""
  · exact ⟨[], by simp [AddExportRegion, h]⟩
  · refine ⟨[(if rs.name = "" then AddExportRegionLine rs
      else AddExportRegionLine rs ++ " # text=\x7b" ++ rs.name ++ "\x7d") ++ "\n"], ?_⟩
    simp [AddExportRegion, h]

/-- C9 helper: a fold of AddExportRegion calls only ever appends. -/
theorem foldAddExportRegion_extends (adds : List RegionState) :
    ∀ st : ExportState, ∃ tail,
      (adds.foldl (fun s rs => (AddExportRegion rs s).2) st).export_regions =
        st.export_regions ++ tail := by
  induction adds with
  | nil => exact fun st => ⟨[], (List.append_nil _).symm⟩
  | cons rs rest ih =>
    intro st
    obtain ⟨t1, h1⟩ := addExportRegion_extends rs st
    obtain ⟨t2, h2⟩ := ih ((AddExportRegion rs st).2)
    exact ⟨t1 ++ t2, by rw [List.foldl_cons, h2, h1, List.append_assoc]⟩

/-- C9: after constructing a Ds9ImportExport for export, ExportRegions
always succeeds, even when no region was ever added: the constructor's
AddHeader unconditionally pushes two header lines, so the
"no regions to export" branch is unreachable. -/
theorem exportRegions_always_succeeds (version globalsLine : String) (pixelCoord : Bool)
    (worldFrame : String) (adds : List RegionState) :
    (ExportRegions (adds.foldl (fun s rs => (AddExportRegion rs s).2)
        (InitExportState version globalsLine pixelCoord worldFrame))).1 = true ∧
    (ExportRegions (adds.foldl (fun s rs => (AddExportRegion rs s).2)
        (InitExportState version globalsLine pixelCoord worldFrame))).2.2 = "" := by
  obtain ⟨tail, htail⟩ :=
    foldAddExportRegion_extends adds (InitExportState version globalsLine pixelCoord worldFrame)
  have hinit : (InitExportState version globalsLine pixelCoord worldFrame).export_regions =
      ["# Region file format: DS9 CARTA " ++ version ++ "\n" ++ globalsLine ++ "\n",
       (if (if pixelCoord then "physical" else worldFrame) = "" then "image"
        else if pixelCoord then "physical" else worldFrame) ++ "\n"] := by
    simp [InitExportState, AddHeader]
  unfold ExportRegions
  rw [htail, hinit]
  simp

end Carta
